import Mathlib

/-!
Verification of the chart/house/dosha kernel of the kundali backend
(`src/kundali_backend.py`).  Python floats are modelled as rationals,
Python `%` on nonnegative-modulus operands as `pymod`, Python dicts as
association lists or total functions where the source only ever uses
in-range keys, and the external ephemeris / geocoding / plotting calls
as oracles supplied to the functions that consume them.
-/

set_option maxRecDepth 4000

/-- Python `x % m` on rationals (result in `[0, m)` for `m > 0`):
`x - m * (x // m)` with `//` the floor division. -/
def pymod (x m : ℚ) : ℚ := x - m * (⌊x / m⌋ : ℚ)

/-- `rashi_names`: the fixed 12-sign list, repeated verbatim at each use
site in the source (`compute_planet_positions`, `build_north_indian_chart`,
`compute_lagna`). -/
def rashi_names : List String :=
  ["मेष", "वृष", "मिथुन", "कर्क", "सिंह", "कन्या", "तुला", "वृश्चिक",
   "धनु", "मकर", "कुंभ", "मीन"]

/-- `rashi_lord` dict (sign → ruling planet). -/
def rashi_lord : List (String × String) :=
  [("मेष", "मंगल"), ("वृष", "शुक्र"), ("मिथुन", "बुध"), ("कर्क", "चंद्र"),
   ("सिंह", "सूर्य"), ("कन्या", "बुध"), ("तुला", "शुक्र"), ("वृश्चिक", "मंगल"),
   ("धनु", "बृहस्पति"), ("मकर", "शनि"), ("कुंभ", "शनि"), ("मीन", "बृहस्पति")]

/-- `rashi_lord[rashi]`: raising dict lookup; every use site passes a key of
`rashi_names`, so the `"KeyError"` default is unreachable there. -/
def lordOf (rashi : String) : String := (rashi_lord.lookup rashi).getD "KeyError"

/-- `planet_to_gemstone` dict. -/
def planet_to_gemstone : List (String × String) :=
  [("मंगल", "मूँगा रक्त इटालियन 7 रत्ती सोना या चाँदी में"),
   ("शुक्र", "बज्रमणि सफ़ेद / ब्राउन डायमंड 5 रत्ती / हीरा 50 सेंट"),
   ("बुध", "पन्ना ब्राज़ीली / पेरिडॉट / ग्रीन तुरमुली 5+ रत्ती चाँदी या प्लैटिनम में"),
   ("चंद्र", "नेचुरल मोती 5 रत्ती (चाँदी में)"),
   ("सूर्य", "माणिक 5 रत्ती सोना या ब्रॉन्ज़ में"),
   ("बृहस्पति", "पीत पुखराज / पीला बज्रमणि 5+ रत्ती सोना या ब्रॉन्ज़ में"),
   ("शनि", "बज्रमणि ब्लू / नीलम 5+ रत्ती पंचधातु में"),
   ("राहु", "गोमेद 5+ रत्ती चाँदी में"),
   ("केतु", "लहसुनिया 5+ रत्ती चाँदी में")]

/-- `exalted_signs` dict (planet → exaltation sign). -/
def exalted_signs : List (String × String) :=
  [("सूर्य", "मेष"), ("चंद्र", "वृष"), ("मंगल", "मकर"), ("बुध", "कन्या"),
   ("बृहस्पति", "कर्क"), ("शुक्र", "मीन"), ("शनि", "तुला"), ("राहु", "वृष"),
   ("केतु", "वृश्चिक")]

/-- `benefics` list. -/
def benefics : List String := ["बृहस्पति", "शुक्र", "बुध", "चंद्र"]

/-- `malefics` list. -/
def malefics : List String := ["मंगल", "शनि", "राहु", "केतु"]

/-- `bhagyavardhak_ratna` static gemstone dict. -/
def bhagyavardhak_ratna : List (String × String) :=
  [("मेष", "पीत पुखराज / पीला बज्रमणि 5+ रत्ती सोना या ब्रॉन्ज़ में"),
   ("वृष", "बज्रमणि ब्लू / नीलम 5+ रत्ती पंचधातु में"),
   ("मिथुन", "बज्रमणि ब्लू / नीलम 5+ रत्ती पंचधातु में"),
   ("कर्क", "पीत पुखराज / पीला बज्रमणि 5+ रत्ती सोना या ब्रॉन्ज़ में"),
   ("सिंह", "मूँगा रक्त इटालियन 7 रत्ती सोना या चाँदी में"),
   ("कन्या", "बज्रमणि सफ़ेद / ब्राउन डायमंड 5 रत्ती / हीरा 50 सेंट"),
   ("तुला", "पन्ना ब्राज़ीली / पेरिडॉट / ग्रीन तुरमुली 5+ रत्ती चाँदी या प्लैटिनम में"),
   ("वृश्चिक", "नेचुरल मोती 5 रत्ती (चाँदी में)"),
   ("धनु", "माणिक 5 रत्ती सोना या ब्रॉन्ज़ में"),
   ("मकर", "पन्ना ब्राज़ीली / पेरिडॉट / ग्रीन तुरमुली 5+ रत्ती चाँदी या प्लैटिनम में"),
   ("कुंभ", "बज्रमणि सफ़ेद / ब्राउन डायमंड 5 रत्ती / हीरा 50 सेंट"),
   ("मीन", "मूँगा रक्त इटालियन 7 रत्ती सोना या चाँदी में")]

/-- `jeevan_rakshak_ratna` static gemstone dict. -/
def jeevan_rakshak_ratna : List (String × String) :=
  [("मेष", "मूँगा रक्त इटालियन 7 रत्ती सोना या चाँदी में"),
   ("वृष", "बज्रमणि सफ़ेद / ब्राउन डायमंड 5 रत्ती / हीरा 50 सेंट"),
   ("मिथुन", "पन्ना ब्राज़ीली / पेरिडॉट / ग्रीन तुरमुली 5+ रत्ती चाँदी या प्लैटिनम में"),
   ("कर्क", "नेचुरल मोती 5 रत्ती (चाँदी में)"),
   ("सिंह", "माणिक 5 रत्ती सोना या ब्रॉन्ज़ में"),
   ("कन्या", "पन्ना ब्राज़ीली / पेरिडॉट / ग्रीन तुरमुली 5+ रत्ती चाँदी या प्लैटिनम में"),
   ("तुला", "बज्रमणि सफ़ेद / ब्राउन डायमंड 5 रत्ती / हीरा 50 सेंट"),
   ("वृश्चिक", "मूँगा रक्त इटालियन 7 रत्ती सोना या चाँदी में"),
   ("धनु", "पीत पुखराज / पीला बज्रमणि 5+ रत्ती सोना या ब्रॉन्ज़ में"),
   ("मकर", "बज्रमणि ब्लू / नीलम 5+ रत्ती पंचधातु में"),
   ("कुंभ", "बज्रमणि ब्लू / नीलम 5+ रत्ती पंचधातु में"),
   ("मीन", "पीत पुखराज / पीला बज्रमणि 5+ रत्ती सोना या ब्रॉन्ज़ में")]

/-- `vidya_vardhak_ratna` static gemstone dict. -/
def vidya_vardhak_ratna : List (String × String) :=
  [("मेष", "मूँगा रक्त इटालियन 7 रत्ती सोना या चाँदी में"),
   ("वृष", "बज्रमणि सफ़ेद / ब्राउन डायमंड 5 रत्ती / हीरा 50 सेंट"),
   ("मिथुन", "पन्ना ब्राज़ीली / पेरिडॉट / ग्रीन तुरमुली 5+ रत्ती चाँदी या प्लैटिनम में"),
   ("कर्क", "नेचुरल मोती 5 रत्ती (चाँदी में)"),
   ("सिंह", "माणिक 5 रत्ती सोना या ब्रॉन्ज़ में"),
   ("कन्या", "पन्ना ब्राज़ीली / पेरिडॉट / ग्रीन तुरमुली 5+ रत्ती चाँदी या प्लैटिनम में"),
   ("तुला", "बज्रमणि सफ़ेद / ब्राउन डायमंड 5 रत्ती / हीरा 50 सेंट"),
   ("वृश्चिक", "मूँगा रक्त इटालियन 7 रत्ती सोना या चाँदी में"),
   ("धनु", "पीत पुखराज / पीला बज्रमणि 5+ रत्ती सोना या ब्रॉन्ज़ में"),
   ("मकर", "बज्रमणि ब्लू / नीलम 5+ रत्ती पंचधातु में"),
   ("कुंभ", "बज्रमणि ब्लू / नीलम 5+ रत्ती पंचधातु में"),
   ("मीन", "पीत पुखराज / पीला बज्रमणि 5+ रत्ती सोना या ब्रॉन्ज़ में")]

/-- `nakshatras`: the fixed 27 lunar-mansion list. -/
def nakshatras : List String :=
  ["अश्विनी", "भरणी", "कृत्तिका", "रोहिणी", "मृगशीर्ष", "आर्द्रा", "पुनर्वसु", "पुष्य", "आश्लेषा",
   "मघा", "पूर्वा फाल्गुनी", "उत्तरा फाल्गुनी", "हस्त", "चित्रा", "स्वाति", "विशाखा", "अनुराधा", "ज्येष्ठा",
   "मूल", "पूर्वाषाढ़ा", "उत्तराषाढ़ा", "श्रवण", "धनिष्ठा", "शतभिषा", "पूर्वाभाद्रपद", "उत्तराभाद्रपद", "रेवती"]

/-- `nakshatra_degrees` literal `13.3333` (as the exact rational it denotes). -/
def nakshatra_degrees : ℚ := 133333 / 10000

/-- `charan_degrees` literal `3.3333`. -/
def charan_degrees : ℚ := 33333 / 10000

/-- `calculate_nakshatra_and_charan(sidereal_pos)`: lunar mansion name and
quarter (pada).  `int(x // y)` on nonnegative floats is `⌊x / y⌋`. -/
def calculate_nakshatra_and_charan (sidereal_pos : ℚ) : String × ℤ :=
  let nakshatra_index : ℤ := ⌊sidereal_pos / nakshatra_degrees⌋
  let nakshatra := nakshatras.getD (nakshatra_index % 27).toNat ""
  let remainder := pymod sidereal_pos nakshatra_degrees
  let charan : ℤ := ⌊remainder / charan_degrees⌋ + 1
  (nakshatra, charan)

/-- One entry of a chart dict: `{"sign": str, "planets": [str, ...]}`. -/
structure HouseData where
  sign : String
  planets : List String
  deriving DecidableEq, Repr

/-- One entry of the `planet_positions` dict (the fields the chart and
gemstone logic consume; `rashi`/`rashi_number` duplicate `sign`/`sign_number`
verbatim in the source and `naming_letter` is only echoed into the JSON). -/
structure PlanetPos where
  degree : ℚ
  sign : String
  sign_number : ℕ
  nakshatra : String
  charan : ℤ
  deriving DecidableEq, Repr

/-- House number a planet with 1-based sign number `sign_number` lands in for
a chart anchored at 1-based sign number `anchor_number`:
`(sign_number - anchor_number) % 12 + 1` with Python `%` (always
nonnegative), from `build_north_indian_chart`. -/
def house_of (sign_number anchor_number : ℕ) : ℕ :=
  (((sign_number : ℤ) - (anchor_number : ℤ)) % 12).toNat + 1

/-- `build_north_indian_chart(lagna_sign_index, moon_sign_index,
planet_positions)`.  The two dict comprehensions become total functions on
house numbers (the dicts' keys are exactly `1..12` and every access in the
source uses such a key); the append loop becomes a filter in iteration
order. -/
def build_north_indian_chart (lagna_sign_index moon_sign_index : ℕ)
    (planet_positions : List (String × PlanetPos)) :
    (ℕ → HouseData) × (ℕ → HouseData) :=
  let lagna_sign_number := lagna_sign_index + 1
  let moon_sign_number := moon_sign_index + 1
  let lagna_chart : ℕ → HouseData := fun i =>
    { sign := rashi_names.getD ((lagna_sign_index + i - 1) % 12) ""
      planets := (planet_positions.filter
        (fun pd => house_of pd.2.sign_number lagna_sign_number = i)).map (·.1) }
  let chandra_chart : ℕ → HouseData := fun i =>
    { sign := rashi_names.getD ((moon_sign_index + i - 1) % 12) ""
      planets := (planet_positions.filter
        (fun pd => house_of pd.2.sign_number moon_sign_number = i)).map (·.1) }
  (lagna_chart, chandra_chart)

/-- The `planets` dict of `compute_planet_positions` in insertion order,
with the swisseph body id each name maps to (`SUN=0, MOON=1, MERCURY=2,
VENUS=3, MARS=4, JUPITER=5, SATURN=6, MEAN_NODE=10`).  Rahu and Ketu both
map to `swe.MEAN_NODE`: Ketu is never queried independently. -/
def planets_swe : List (String × ℕ) :=
  [("सूर्य", 0), ("चंद्र", 1), ("बुध", 2), ("शुक्र", 3), ("मंगल", 4),
   ("बृहस्पति", 5), ("शनि", 6), ("राहु", 10), ("केतु", 10)]

/-- `compute_planet_positions(birth_jd, ayanamsa)`.  `calc_ut` is the
ephemeris oracle `swe.calc_ut(birth_jd, ·)[0][0]` (tropical longitude by
body id).  The Ketu branch reassigns `sidereal_pos` to
`(sidereal_pos + 180) % 360` and re-derives sign and nakshatra/charan
from the adjusted value, exactly as the source does. -/
def compute_planet_positions (calc_ut : ℕ → ℚ) (ayanamsa : ℚ) :
    List (String × PlanetPos) :=
  planets_swe.map (fun pid =>
    let tropical_pos := calc_ut pid.2
    let sidereal_pos := pymod (tropical_pos - ayanamsa) 360
    let sidereal_pos := if pid.1 = "केतु" then pymod (sidereal_pos + 180) 360 else sidereal_pos
    let sign_index := (⌊sidereal_pos / 30⌋ % 12).toNat
    let sign := rashi_names.getD sign_index ""
    let nc := calculate_nakshatra_and_charan sidereal_pos
    (pid.1, { degree := sidereal_pos, sign := sign, sign_number := sign_index + 1,
              nakshatra := nc.1, charan := nc.2 }))

/-- `compute_lagna(birth_jd, lat, lon, ayanamsa)`: `ascendant_degree` is the
oracle `swe.houses(...)` first `ascmc` value; the sidereal-time computation
of the source is logged and discarded, so it is elided.  Returns the
corrected degree and the lagna rashi name. -/
def compute_lagna (ascendant_degree ayanamsa : ℚ) : ℚ × String :=
  let ascendant_degree_corrected := pymod (ascendant_degree - ayanamsa) 360
  let lagna_sign_index := (⌊ascendant_degree_corrected / 30⌋ % 12).toNat
  (ascendant_degree_corrected, rashi_names.getD lagna_sign_index "")

/-- `get_planet_house(planet, lagna_chart)` (and the identical inline
`for house in range(1, 13): ... break` scans in the dosha blocks): the
first house in `1..12` whose planet list contains `planet`. -/
def get_planet_house (chart : ℕ → HouseData) (planet : String) : Option ℕ :=
  (List.range' 1 12).find? (fun house => (chart house).planets.contains planet)

/-- Python `x % 12 or 12`: 12 when the remainder is 0, used for the
aspect-offset house numbers. -/
def mod12or12 (x : ℕ) : ℕ := if x % 12 = 0 then 12 else x % 12

/-- `planet_positions.get(planet, {}).get("sign", "")`. -/
def sign_of (planet_positions : List (String × PlanetPos)) (planet : String) : String :=
  ((planet_positions.lookup planet).map (·.sign)).getD ""

/-- The benefic-in-house test of the first `get_gemstone` scan
(lines 192–197): the planet occupies the resolved chart slot and is strong
there (slot sign or own exaltation sign). -/
def gem_in_house_strong (lagna_chart : ℕ → HouseData)
    (planet_positions : List (String × PlanetPos)) (house_index : ℕ) (planet : String) :
    Bool :=
  (lagna_chart house_index).planets.contains planet &&
  (let planet_sign := sign_of planet_positions planet
   planet_sign == (lagna_chart house_index).sign ||
   planet_sign == (exalted_signs.lookup planet).getD "")

/-- The benefic-aspect test of the second `get_gemstone` scan
(lines 200–215): the planet's placement house aspects the resolved slot
(+4/+8 offsets for Jupiter, +6 for the others, mod 12 with 0→12), and its
sign equals its placement house's sign or its exaltation sign. -/
def gem_aspect_strong (lagna_chart : ℕ → HouseData)
    (planet_positions : List (String × PlanetPos)) (house_index : ℕ) (planet : String) :
    Bool :=
  match get_planet_house lagna_chart planet with
  | some planet_house =>
    let aspects := if planet = "बृहस्पति"
      then [mod12or12 (planet_house + 4), mod12or12 (planet_house + 8)]
      else [mod12or12 (planet_house + 6)]
    aspects.contains house_index &&
    (let planet_sign := sign_of planet_positions planet
     planet_sign == (lagna_chart planet_house).sign ||
     planet_sign == (exalted_signs.lookup planet).getD "")
  | none => false

/-- `get_gemstone(house_number, lagna_chart, planet_positions,
lagna_sign_index)` (lines 163–228), translated clause for clause: the
initial `house_index` offset, the strong-and-benefic house-lord test, the
benefic-in-house scan, the benefic-aspect scan (first-match semantics of
the `return` statements become `List.find?`), and the fallback chain. -/
def get_gemstone (house_number : ℕ) (lagna_chart : ℕ → HouseData)
    (planet_positions : List (String × PlanetPos)) (lagna_sign_index : ℕ) : String :=
  let house_index := (lagna_sign_index + (house_number - 1)) % 12 + 1
  let rashi := (lagna_chart house_index).sign
  let lord := lordOf rashi
  let lord_sign := sign_of planet_positions lord
  let is_lord_strong := lord_sign == rashi || lord_sign == (exalted_signs.lookup lord).getD ""
  let is_lord_benefic := benefics.contains lord
  if is_lord_strong && is_lord_benefic then (planet_to_gemstone.lookup lord).getD "Unknown"
  else
    match benefics.find? (gem_in_house_strong lagna_chart planet_positions house_index) with
    | some planet => (planet_to_gemstone.lookup planet).getD "Unknown"
    | none =>
      match benefics.find? (gem_aspect_strong lagna_chart planet_positions house_index) with
      | some planet => (planet_to_gemstone.lookup planet).getD "Unknown"
      | none =>
        if house_number = 5 ∨ house_number = 9 then
          (planet_to_gemstone.lookup "बृहस्पति").getD
            "पीत पुखराज / पीला बज्रमणि 5+ रत्ती सोना या ब्रॉन्ज़ में"
        else if house_number = 1 then
          (planet_to_gemstone.lookup lord).getD ((jeevan_rakshak_ratna.lookup rashi).getD "Unknown")
        else if house_number = 5 then (vidya_vardhak_ratna.lookup rashi).getD "Unknown"
        else if house_number = 9 then (bhagyavardhak_ratna.lookup rashi).getD "Unknown"
        else "Unknown"

/-- `mangal_dosha_houses` list. -/
def mangal_dosha_houses : List ℕ := [1, 4, 7, 8, 12]

/-- `kendra_houses` list. -/
def kendra_houses : List ℕ := [1, 4, 7, 10]

/-- The `mangal_dosha_details` dict. -/
structure MangalResult where
  exists' : Bool
  nullified : Bool
  reasons : List String
  deriving DecidableEq, Repr

/-- The mangal-dosha block of `calculate_kundali` (lines 929–980): Mars's
house decides `exists`; inside the flagged branch the four nullifying
conditions are tested in sequence, each setting `nullified` and appending
its reason.  House values are `1..12`, hence always truthy, so Python's
`if jupiter_house:` is an `isSome` test. -/
def evaluate_mangal_dosha (lagna_chart : ℕ → HouseData) : MangalResult :=
  let mars_house := get_planet_house lagna_chart "मंगल"
  let mangal_dosha := match mars_house with
    | some h => mangal_dosha_houses.contains h
    | none => false
  if mangal_dosha then
    let jupiter_house := get_planet_house lagna_chart "बृहस्पति"
    let moon_house := get_planet_house lagna_chart "चंद्र"
    let rahu_house := get_planet_house lagna_chart "राहु"
    let cond_jupiter := match jupiter_house, mars_house with
      | some jh, some mh =>
        [mod12or12 (jh + 4), mod12or12 (jh + 6), mod12or12 (jh + 8)].contains mh
      | _, _ => false
    let cond_kendra := match moon_house with
      | some mh => kendra_houses.contains mh
      | none => false
    let cond_moon_mars := moon_house == mars_house
    let cond_rahu_mars := rahu_house == mars_house
    { exists' := true
      nullified := cond_jupiter || cond_kendra || cond_moon_mars || cond_rahu_mars
      reasons := (if cond_jupiter then ["गुरु मंगल को देख रहा है"] else []) ++
                 (if cond_kendra then ["चंद्रमा केंद्र में है"] else []) ++
                 (if cond_moon_mars then ["चंद्रमा मंगल के साथ है"] else []) ++
                 (if cond_rahu_mars then ["राहु मंगल के साथ है"] else []) }
  else { exists' := false, nullified := false, reasons := [] }

/-- Python dict assignment `d[k] = v`: replace in place if the key exists,
else append. -/
def dict_set (d : List (String × ℕ)) (k : String) (v : ℕ) : List (String × ℕ) :=
  if d.any (fun kv => kv.1 == k) then d.map (fun kv => if kv.1 == k then (k, v) else kv)
  else d ++ [(k, v)]

/-- State of the kaalsarp scanning loop (lines 982–992): last-seen Rahu and
Ketu houses and the `planet_houses` dict of every other planet. -/
structure KaalsarpScan where
  rahu_house : Option ℕ
  ketu_house : Option ℕ
  planet_houses : List (String × ℕ)
  deriving DecidableEq, Repr

/-- The nested `for house in range(1, 13): for planet in ...` kaalsarp scan. -/
def kaalsarp_scan (lagna_chart : ℕ → HouseData) : KaalsarpScan :=
  ((List.range' 1 12).flatMap
      (fun house => (lagna_chart house).planets.map (fun p => (p, house)))).foldl
    (fun st ph =>
      if ph.1 = "राहु" then { st with rahu_house := some ph.2 }
      else if ph.1 = "केतु" then { st with ketu_house := some ph.2 }
      else { st with planet_houses := dict_set st.planet_houses ph.1 ph.2 })
    ⟨none, none, []⟩

/-- The `kaalsarp_details` dict. -/
structure KaalsarpResult where
  exists' : Bool
  rahu_house : Option ℕ
  ketu_house : Option ℕ
  deriving DecidableEq, Repr

/-- The kaalsarp block of `calculate_kundali` (lines 994–1012): when both
nodes were seen, `all_between` accepts a planet house that is strictly
between `min`/`max` OR strictly outside them; if that fails for some
planet, a second pass requires every planet strictly outside.  House
values are `1..12`, so Python's `if rahu_house and ketu_house:` is an
`isSome` test on both. -/
def evaluate_kaalsarp (lagna_chart : ℕ → HouseData) : KaalsarpResult :=
  let s := kaalsarp_scan lagna_chart
  match s.rahu_house, s.ketu_house with
  | some rh, some kh =>
    let min_house := min rh kh
    let max_house := max rh kh
    let all_between := s.planet_houses.all (fun q =>
      decide ((min_house < q.2 ∧ q.2 < max_house) ∨ (q.2 < min_house ∨ q.2 > max_house)))
    let kaalsarp_dosha := if all_between then true
      else s.planet_houses.all (fun q => decide (q.2 < min_house ∨ q.2 > max_house))
    { exists' := kaalsarp_dosha, rahu_house := some rh, ketu_house := some kh }
  | rh, kh => { exists' := false, rahu_house := rh, ketu_house := kh }

/-- The sade-sati test of `calculate_kundali` (lines 1140–1147): Saturn's
house relative to Moon's house mod 12 in `{0, 1, 11}`; skipped (false) when
either planet is not found. -/
def evaluate_sade_sati (lagna_chart : ℕ → HouseData) : Bool :=
  match get_planet_house lagna_chart "चंद्र", get_planet_house lagna_chart "शनि" with
  | some moon_house, some saturn_house =>
    let relative_position : ℤ := ((saturn_house : ℤ) - (moon_house : ℤ)) % 12
    ([0, 1, 11] : List ℤ).contains relative_position
  | _, _ => false

/-- Decimal digit value of a character, if it is a digit. -/
def digitVal? (c : Char) : Option ℕ :=
  if '0' ≤ c ∧ c ≤ '9' then some (c.toNat - '0'.toNat) else none

/-- Python `int(s)` on the nonnegative decimal strings the date/time fields
carry; `none` models the `ValueError` raised on a non-numeric part. -/
def natOfChars? : List Char → Option ℕ
  | [] => none
  | cs => cs.foldl (fun acc c =>
      match acc, digitVal? c with
      | some n, some d => some (10 * n + d)
      | _, _ => none) (some 0)

/-- `s.split(sep)` for a one-character separator. -/
def splitChars (sep : Char) : List Char → List (List Char)
  | [] => [[]]
  | c :: cs =>
    if c = sep then [] :: splitChars sep cs
    else match splitChars sep cs with
      | [] => [[c]]
      | g :: gs => (c :: g) :: gs

/-- `map(int, s.split(':'))` unpacked into two values, as in
`convert_to_julian` — no range validation. -/
def parse_colon_ints? (s : String) : Option (ℕ × ℕ) :=
  match splitChars ':' s.data with
  | [a, b] =>
    match natOfChars? a, natOfChars? b with
    | some x, some y => some (x, y)
    | _, _ => none
  | _ => none

/-- `datetime.strptime(s, "%H:%M")` reduced to the fields the source reads:
hour and minute, with strptime's range validation; `none` models the
`ValueError` on a malformed string. -/
def parseHM (s : String) : Option (ℕ × ℕ) :=
  match parse_colon_ints? s with
  | some (h, m) => if h < 24 ∧ m < 60 then some (h, m) else none
  | none => none

/-- `map(int, birth_date.split('-'))` unpacked into year, month, day. -/
def parseDate (s : String) : Option (ℕ × ℕ × ℕ) :=
  match splitChars '-' s.data with
  | [ys, ms, ds] =>
    match natOfChars? ys, natOfChars? ms, natOfChars? ds with
    | some y, some m, some d => some (y, m, d)
    | _, _, _ => none
  | _ => none

/-- `calculate_ist_kaal(birth_time, sunrise_time)` (lines 535–557): the
whole body sits in a `try`, so a strptime failure or the explicitly raised
`ValueError` on a birth time before sunrise both return `None`.
`int()` truncates toward zero; both truncated values are nonnegative here,
so it is `⌊·⌋`. -/
def calculate_ist_kaal (birth_time sunrise_time : String) : Option String :=
  match parseHM birth_time, parseHM sunrise_time with
  | some (bh, bm), some (sh, sm) =>
    let ist_kaal_minutes : ℤ := ((bh : ℤ) * 60 + bm) - ((sh : ℤ) * 60 + sm)
    if ist_kaal_minutes < 0 then none
    else
      let total_pal : ℚ := (ist_kaal_minutes : ℚ) * (5 / 2)
      let ghati : ℤ := ⌊total_pal / 60⌋
      let remaining_pal := pymod total_pal 60
      let pal : ℤ := ⌊remaining_pal⌋
      let vipal : ℤ := ⌊(remaining_pal - (pal : ℚ)) * 60⌋
      let gp := if pal ≥ 60 then (ghati + pal / 60, pal % 60) else (ghati, pal)
      some (toString gp.1 ++ "-" ++ toString gp.2 ++ "-" ++ toString vipal)
  | _, _ => none

/-- Zero-padded two-digit field of `strftime`. -/
def pad2 (n : ℕ) : String := if n < 10 then "0" ++ toString n else toString n

/-- `julian_to_time(jd, return_only_hour_minute=True)` (lines 508–518):
Unix seconds from the Julian day, shifted by the fixed IST offset
(+5:30), formatted `"%H:%M"`. -/
def julian_to_time_hm (jd : ℚ) : String :=
  let unix_time := (jd - 2440587.5) * 86400
  let ist_seconds := unix_time + (5 * 3600 + 30 * 60 : ℚ)
  let hour := (⌊ist_seconds / 3600⌋ % 24).toNat
  let minute := (⌊ist_seconds / 60⌋ % 60).toNat
  pad2 hour ++ ":" ++ pad2 minute

/-- `get_lat_lon(birth_place)` (lines 485–499): normalized cache lookup,
then the geocoding service; a service exception is caught and, like a
no-match result, degrades to `(None, None)`, modelled as `none`.  (The
cache insertion is cross-request state that never affects the current
response and is elided.) -/
def get_lat_lon (geocode : String → Except Unit (Option (ℚ × ℚ)))
    (geolocation_cache : List (String × (ℚ × ℚ))) (birth_place : String) :
    Option (ℚ × ℚ) :=
  let bp := birth_place.trim.toLower
  match geolocation_cache.lookup bp with
  | some v => some v
  | none =>
    match geocode bp with
    | .ok (some loc) => some loc
    | .ok none => none
    | .error _ => none

/-- `convert_to_julian(birth_date, birth_time)` (lines 501–506): parse the
fields, convert IST to UT, and ask the ephemeris oracle `swe.julday` for
the Julian day; `none` models the uncaught parse `ValueError`. -/
def convert_to_julian (julday : ℕ → ℕ → ℕ → ℚ → ℚ)
    (birth_date birth_time : String) : Option ℚ :=
  match parseDate birth_date, parse_colon_ints? birth_time with
  | some (year, month, day), some (hour, minute) =>
    some (julday year month day ((hour : ℚ) + (minute : ℚ) / 60 - 5.5))
  | _, _ => none

/-- `get_sunrise_time(julian_day, lat, lon)` (lines 520–533): the
`swe.rise_trans` oracle yields a return code and `tret[0]`; a non-zero
code raises `ValueError`, and any exception is caught and returns `None`. -/
def get_sunrise_time (rise_trans : ℚ → ℚ → ℚ → Except Unit (ℤ × ℚ))
    (julian_day lat lon : ℚ) : Option ℚ :=
  match rise_trans julian_day lat lon with
  | .ok (res, tret0) => if res = 0 then some tret0 else none
  | .error _ => none

/-- The external collaborators `calculate_kundali` calls, as oracles:
geocoding (`Except` for a raised exception), `swe.julday`,
`swe.get_ayanamsa_ut`, the `swe.houses` ascendant, `swe.calc_ut` tropical
longitude by Julian day and body id, `swe.rise_trans`, and whether the
Devanagari font file needed by chart drawing exists. -/
structure Env where
  geocode : String → Except Unit (Option (ℚ × ℚ))
  julday : ℕ → ℕ → ℕ → ℚ → ℚ
  get_ayanamsa_ut : ℚ → ℚ
  houses_ascendant : ℚ → ℚ → ℚ → ℚ
  calc_ut : ℚ → ℕ → ℚ
  rise_trans : ℚ → ℚ → ℚ → Except Unit (ℤ × ℚ)
  font_ok : Bool

/-- The JSON body of a `POST /kundali` request (absent key → `none`). -/
structure Request where
  name : Option String
  birth_date : Option String
  birth_time : Option String
  birth_place : Option String

/-- `not field` in Python: absent or empty string. -/
def falsy (o : Option String) : Bool := o.isNone || o == some ""

/-- The fields of the success response that the computation kernel
produces (echoed inputs, numerology, prediction strings and image URLs
are assembled from the same values or are rendering-only and are not
modelled). -/
structure KundaliResponse where
  sunrise_time : String
  ist_kaal : Option String
  lagna_degree : ℚ
  lagna_rashi : String
  lagna_chart : ℕ → HouseData
  chandra_chart : ℕ → HouseData
  jeevan_rakshak : String
  vidya_vardhak : String
  bhagyavardhak : String
  mangal_dosha : MangalResult
  kaalsarp_dosha : KaalsarpResult
  sade_sati : Bool

/-- Outcome of the request: the error responses with their messages, a
successful JSON response, or an uncaught exception propagating out of the
handler (Flask's generic 500). -/
inductive HttpResult where
  | badRequest (error : String)
  | serverError (error : String)
  | ok (body : KundaliResponse)
  | crash

/-- The `POST /kundali` handler `calculate_kundali` (lines 829–1220), in
source order: field validation, geocoding, Julian day (a parse failure
raises and propagates), ayanamsa, lagna, planet positions, the two charts,
chart drawing (`sanitize_filename(None)` raises a `TypeError` when `name`
is absent, and drawing raises when the font file is missing), sunrise
(`None` → 500), ist-kaal, then the derived astrology.
`cleanup_static_folder()` touches only the filesystem and is elided. -/
def calculate_kundali (env : Env) (geolocation_cache : List (String × (ℚ × ℚ)))
    (req : Request) : HttpResult :=
  if falsy req.birth_date || falsy req.birth_time || falsy req.birth_place then
    .badRequest "Missing required fields"
  else
    match get_lat_lon env.geocode geolocation_cache (req.birth_place.getD "") with
    | none => .badRequest "Invalid birth place"
    | some (lat, lon) =>
      match convert_to_julian env.julday (req.birth_date.getD "") (req.birth_time.getD "") with
      | none => .crash
      | some birth_jd =>
        let ayanamsa := env.get_ayanamsa_ut birth_jd
        let lagna := compute_lagna (env.houses_ascendant birth_jd lat lon) ayanamsa
        let lagna_sign_index := rashi_names.indexOf lagna.2
        let planet_positions := compute_planet_positions (env.calc_ut birth_jd) ayanamsa
        -- `planet_positions["चंद्र"]`: the key is always present, the default is unreachable
        let moon_sign_index := ((planet_positions.lookup "चंद्र").map (·.sign_number)).getD 1 - 1
        let charts := build_north_indian_chart lagna_sign_index moon_sign_index planet_positions
        match req.name with
        | none => .crash
        | some _ =>
          if !env.font_ok then .crash
          else
            match get_sunrise_time env.rise_trans birth_jd lat lon with
            | none => .serverError "Failed to calculate sunrise time"
            | some sunrise_jd =>
              let converted_sunrise_time := julian_to_time_hm sunrise_jd
              let ist_kaal := calculate_ist_kaal (req.birth_time.getD "") converted_sunrise_time
              .ok { sunrise_time := converted_sunrise_time
                    ist_kaal := ist_kaal
                    lagna_degree := lagna.1
                    lagna_rashi := lagna.2
                    lagna_chart := charts.1
                    chandra_chart := charts.2
                    jeevan_rakshak := get_gemstone 1 charts.1 planet_positions lagna_sign_index
                    vidya_vardhak := get_gemstone 5 charts.1 planet_positions lagna_sign_index
                    bhagyavardhak := get_gemstone 9 charts.1 planet_positions lagna_sign_index
                    mangal_dosha := evaluate_mangal_dosha charts.1
                    kaalsarp_dosha := evaluate_kaalsarp charts.1
                    sade_sati := evaluate_sade_sati charts.1 }


lemma nodup_keys_eq {α β : Type} [DecidableEq α] {l : List (α × β)}
    (hnd : (l.map Prod.fst).Nodup) {k : α} {v w : β}
    (hv : (k, v) ∈ l) (hw : (k, w) ∈ l) : v = w := by
  induction l with
  | nil => cases hv
  | cons hd tl ih =>
    simp only [List.map_cons, List.nodup_cons] at hnd
    rcases List.mem_cons.mp hv with rfl | hv' <;>
      rcases List.mem_cons.mp hw with h | hw'
    · cases h; rfl
    · exact absurd (List.mem_map_of_mem Prod.fst hw') (by simpa using hnd.1)
    · cases h; exact absurd (List.mem_map_of_mem Prod.fst hv') (by simpa using hnd.1)
    · exact ih hnd.2 hv' hw'

lemma mem_build_planets {a m i : ℕ} {positions : List (String × PlanetPos)} {p : String} :
    p ∈ ((build_north_indian_chart a m positions).1 i).planets ↔
      ∃ pos, (p, pos) ∈ positions ∧ house_of pos.sign_number (a + 1) = i := by
  simp only [build_north_indian_chart, List.mem_map, List.mem_filter]
  constructor
  · rintro ⟨⟨q, pos⟩, ⟨hmem, hh⟩, rfl⟩
    exact ⟨pos, hmem, by simpa using hh⟩
  · rintro ⟨pos, hmem, hh⟩
    exact ⟨(p, pos), ⟨hmem, by simpa using hh⟩, rfl⟩

lemma mem_build_planets2 {a m i : ℕ} {positions : List (String × PlanetPos)} {p : String} :
    p ∈ ((build_north_indian_chart a m positions).2 i).planets ↔
      ∃ pos, (p, pos) ∈ positions ∧ house_of pos.sign_number (m + 1) = i := by
  simp only [build_north_indian_chart, List.mem_map, List.mem_filter]
  constructor
  · rintro ⟨⟨q, pos⟩, ⟨hmem, hh⟩, rfl⟩
    exact ⟨pos, hmem, by simpa using hh⟩
  · rintro ⟨pos, hmem, hh⟩
    exact ⟨(p, pos), ⟨hmem, by simpa using hh⟩, rfl⟩

lemma house_of_eq_iff {s a h : ℕ} (hs1 : 1 ≤ s) (hs2 : s ≤ 12) (ha : a < 12)
    (hh1 : 1 ≤ h) (hh2 : h ≤ 12) :
    house_of s (a + 1) = h ↔ (a + h - 1) % 12 = s - 1 := by
  unfold house_of; omega

/-- C1: for every anchor sign index `a`, `s ↦ ((s − a) mod 12) + 1` maps the
12 sign indices bijectively onto house numbers 1–12; house `i` of a built
chart carries the sign of index `(anchor + i − 1) mod 12`; and each planet
of the `planet_positions` dict is placed in exactly one house of each of
the two charts, namely the house whose sign index equals the planet's own
sign index. -/
theorem C1_house_bijection_and_placement :
    (∀ a : Fin 12,
      (∀ s : Fin 12, 1 ≤ house_of (s.1 + 1) (a.1 + 1) ∧ house_of (s.1 + 1) (a.1 + 1) ≤ 12) ∧
      (∀ s t : Fin 12, house_of (s.1 + 1) (a.1 + 1) = house_of (t.1 + 1) (a.1 + 1) → s = t) ∧
      (∀ h : Fin 12, ∃ s : Fin 12, house_of (s.1 + 1) (a.1 + 1) = h.1 + 1))
  ∧ (∀ a m : Fin 12, ∀ positions : List (String × PlanetPos), ∀ i : ℕ,
      ((build_north_indian_chart a.1 m.1 positions).1 i).sign
          = rashi_names.getD ((a.1 + i - 1) % 12) "" ∧
      ((build_north_indian_chart a.1 m.1 positions).2 i).sign
          = rashi_names.getD ((m.1 + i - 1) % 12) "")
  ∧ (∀ a m : Fin 12, ∀ positions : List (String × PlanetPos),
      (positions.map Prod.fst).Nodup →
      ∀ p pos, (p, pos) ∈ positions → 1 ≤ pos.sign_number → pos.sign_number ≤ 12 →
      (∃! h : ℕ, p ∈ ((build_north_indian_chart a.1 m.1 positions).1 h).planets) ∧
      (∃! h : ℕ, p ∈ ((build_north_indian_chart a.1 m.1 positions).2 h).planets) ∧
      (∀ h : ℕ, 1 ≤ h → h ≤ 12 →
        (p ∈ ((build_north_indian_chart a.1 m.1 positions).1 h).planets ↔
          (a.1 + h - 1) % 12 = pos.sign_number - 1))) := by
  refine ⟨by decide, fun a m positions i => ⟨rfl, rfl⟩, ?_⟩
  intro a m positions hnd p pos hmem hs1 hs2
  have key1 : ∀ h : ℕ, p ∈ ((build_north_indian_chart a.1 m.1 positions).1 h).planets ↔
      house_of pos.sign_number (a.1 + 1) = h := by
    intro h
    rw [mem_build_planets]
    constructor
    · rintro ⟨pos', hmem', hh⟩
      rwa [nodup_keys_eq hnd hmem hmem'] 
    · intro hh; exact ⟨pos, hmem, hh⟩
  have key2 : ∀ h : ℕ, p ∈ ((build_north_indian_chart a.1 m.1 positions).2 h).planets ↔
      house_of pos.sign_number (m.1 + 1) = h := by
    intro h
    rw [mem_build_planets2]
    constructor
    · rintro ⟨pos', hmem', hh⟩
      rwa [nodup_keys_eq hnd hmem hmem']
    · intro hh; exact ⟨pos, hmem, hh⟩
  refine ⟨⟨house_of pos.sign_number (a.1 + 1), (key1 _).mpr rfl,
            fun y hy => ((key1 y).mp hy).symm⟩,
          ⟨house_of pos.sign_number (m.1 + 1), (key2 _).mpr rfl,
            fun y hy => ((key2 y).mp hy).symm⟩,
          fun h hh1 hh2 => ?_⟩
  rw [key1 h, house_of_eq_iff hs1 hs2 a.isLt hh1 hh2]

lemma between_or_outside_iff {mn mx h : ℕ} (hle : mn ≤ mx) :
    ((mn < h ∧ h < mx) ∨ (h < mn ∨ h > mx)) ↔ h ≠ mn ∧ h ≠ mx := by omega

lemma evaluate_kaalsarp_some (chart : ℕ → HouseData) {rh kh : ℕ} {ph : List (String × ℕ)}
    (hscan : kaalsarp_scan chart = ⟨some rh, some kh, ph⟩) :
    (evaluate_kaalsarp chart).exists' =
      ph.all (fun q =>
        decide ((min rh kh < q.2 ∧ q.2 < max rh kh) ∨ (q.2 < min rh kh ∨ q.2 > max rh kh))) := by
  unfold evaluate_kaalsarp
  rw [hscan]
  simp only
  by_cases hab : (ph.all (fun q =>
      decide ((min rh kh < q.2 ∧ q.2 < max rh kh) ∨
        (q.2 < min rh kh ∨ q.2 > max rh kh)))) = true
  · rw [if_pos hab]; exact hab.symm
  · have hrev : (ph.all (fun q => decide (q.2 < min rh kh ∨ q.2 > max rh kh))) = false := by
      rw [Bool.eq_false_iff]
      intro hrv
      apply hab
      rw [List.all_eq_true] at hrv ⊢
      intro q hq
      have := hrv q hq
      simp only [decide_eq_true_eq] at this ⊢
      omega
    rw [if_neg hab, hrev]
    exact (Bool.eq_false_iff.mpr hab).symm

lemma evaluate_kaalsarp_skip (chart : ℕ → HouseData)
    (h : (kaalsarp_scan chart).rahu_house = none ∨ (kaalsarp_scan chart).ketu_house = none) :
    (evaluate_kaalsarp chart).exists' = false := by
  unfold evaluate_kaalsarp
  rcases hscan : kaalsarp_scan chart with ⟨rho, kho, ph⟩
  rw [hscan] at h
  simp only at h ⊢
  cases rho <;> cases kho <;> simp_all

/-- C2 (amended): with both nodes placed, the kaalsarp flag is set iff no
non-node planet occupies either node's house (the min or the max of the
two node houses); with a node missing the check is skipped and the flag
stays false. -/
theorem C2_kaalsarp_amended (chart : ℕ → HouseData) :
    (∀ rh kh ph, kaalsarp_scan chart = ⟨some rh, some kh, ph⟩ →
        ((evaluate_kaalsarp chart).exists' = true ↔
          ∀ q ∈ ph, q.2 ≠ min rh kh ∧ q.2 ≠ max rh kh))
  ∧ (((kaalsarp_scan chart).rahu_house = none ∨ (kaalsarp_scan chart).ketu_house = none) →
      (evaluate_kaalsarp chart).exists' = false) := by
  refine ⟨?_, evaluate_kaalsarp_skip chart⟩
  intro rh kh ph hscan
  rw [evaluate_kaalsarp_some chart hscan, List.all_eq_true]
  constructor
  · intro hall q hq
    have := hall q hq
    simp only [decide_eq_true_eq] at this
    exact (between_or_outside_iff (min_le_max)).mp this
  · intro hall q hq
    simp only [decide_eq_true_eq]
    exact (between_or_outside_iff (min_le_max)).mpr (hall q hq)

lemma nat_beq_eq_decide (a b : ℕ) : (a == b) = decide (a = b) := by
  cases h : decide (a = b) <;> simp_all

/-- C3: with Mars, Jupiter, Moon and Rahu all located in the ascendant
chart, mangal dosha `exists` is set iff Mars's house is one of
{1, 4, 7, 8, 12}; when set, the four nullifying conditions (Jupiter's house
plus an offset from {+4, +6, +8}, mod 12 with the 0→12 correction, hitting
Mars's house; Moon in a kendra house {1, 4, 7, 10}; Moon with Mars; Rahu
with Mars) are checked independently, each one setting `nullified` and
appending its fixed reason string. -/
theorem C3_mangal_dosha (chart : ℕ → HouseData) (mh jh moh rh : ℕ)
    (hm : get_planet_house chart "मंगल" = some mh)
    (hj : get_planet_house chart "बृहस्पति" = some jh)
    (hmo : get_planet_house chart "चंद्र" = some moh)
    (hr : get_planet_house chart "राहु" = some rh) :
    ((evaluate_mangal_dosha chart).exists' = true ↔ mh ∈ mangal_dosha_houses)
  ∧ (mh ∈ mangal_dosha_houses →
      (evaluate_mangal_dosha chart).nullified =
        (decide (mh ∈ [mod12or12 (jh + 4), mod12or12 (jh + 6), mod12or12 (jh + 8)]) ||
         decide (moh ∈ kendra_houses) || decide (moh = mh) || decide (rh = mh)) ∧
      (evaluate_mangal_dosha chart).reasons =
        (if mh ∈ [mod12or12 (jh + 4), mod12or12 (jh + 6), mod12or12 (jh + 8)]
          then ["गुरु मंगल को देख रहा है"] else []) ++
        (if moh ∈ kendra_houses then ["चंद्रमा केंद्र में है"] else []) ++
        (if moh = mh then ["चंद्रमा मंगल के साथ है"] else []) ++
        (if rh = mh then ["राहु मंगल के साथ है"] else [])) := by
  unfold evaluate_mangal_dosha
  rw [hm, hj, hmo, hr]
  by_cases hc : mangal_dosha_houses.contains mh = true
  · rw [if_pos hc]
    refine ⟨by simpa using hc, fun _ => ⟨by simp [nat_beq_eq_decide], by simp [nat_beq_eq_decide]⟩⟩
  · rw [if_neg hc]
    refine ⟨?_, fun hmem => absurd (by simpa using hmem) hc⟩
    simp only [Bool.false_eq_true, false_iff]
    intro hmem
    exact hc (by simpa using hmem)

lemma pymod_nonneg {x m : ℚ} (hm : 0 < m) : 0 ≤ pymod x m := by
  have h1 : (⌊x / m⌋ : ℚ) ≤ x / m := Int.floor_le _
  have h2 : m * (⌊x / m⌋ : ℚ) ≤ x := by
    calc m * (⌊x / m⌋ : ℚ) ≤ m * (x / m) := mul_le_mul_of_nonneg_left h1 hm.le
      _ = x := by field_simp
  unfold pymod; linarith

lemma pymod_lt {x m : ℚ} (hm : 0 < m) : pymod x m < m := by
  have h1 : x / m < (⌊x / m⌋ : ℚ) + 1 := Int.lt_floor_add_one _
  have h2 : x < m * ((⌊x / m⌋ : ℚ) + 1) := by
    calc x = m * (x / m) := by field_simp
      _ < m * ((⌊x / m⌋ : ℚ) + 1) := by exact mul_lt_mul_of_pos_left h1 hm
  have h3 : m * ((⌊x / m⌋ : ℚ) + 1) = m * (⌊x / m⌋ : ℚ) + m := by ring
  unfold pymod; linarith

lemma pymod_eq_self {x m : ℚ} (h0 : 0 ≤ x) (h1 : x < m) : pymod x m = x := by
  have hm : 0 < m := lt_of_le_of_lt h0 h1
  have : ⌊x / m⌋ = 0 := by
    rw [Int.floor_eq_zero_iff]
    constructor
    · positivity
    · rw [div_lt_one hm]; exact h1
  unfold pymod; rw [this]; simp

/-- Lines 175–176 of `get_gemstone`: the chart slot it reads the house
sign (and thence the lord) from. -/
def gemstone_house_rashi (house_number : ℕ) (lagna_chart : ℕ → HouseData)
    (lagna_sign_index : ℕ) : String :=
  (lagna_chart ((lagna_sign_index + (house_number - 1)) % 12 + 1)).sign

/-- Chart for the C4 failing input: ascendant Taurus (index 1); Mercury's
sign is सिंह so it is not strong, no benefic occupies or aspects the
resolved slot. -/
def c4_positions : List (String × PlanetPos) :=
  [("सूर्य", ⟨0, "वृष", 2, "", 1⟩), ("चंद्र", ⟨0, "सिंह", 5, "", 1⟩), ("बुध", ⟨0, "सिंह", 5, "", 1⟩),
   ("शुक्र", ⟨0, "सिंह", 5, "", 1⟩), ("मंगल", ⟨0, "वृष", 2, "", 1⟩), ("बृहस्पति", ⟨0, "सिंह", 5, "", 1⟩),
   ("शनि", ⟨0, "वृष", 2, "", 1⟩), ("राहु", ⟨0, "वृष", 2, "", 1⟩), ("केतु", ⟨0, "वृश्चिक", 8, "", 1⟩)]

/-- The lagna chart for ascendant sign index 1 over `c4_positions`. -/
def c4_chart : ℕ → HouseData := (build_north_indian_chart 1 0 c4_positions).1

/-- C4: at lagna sign index 1 (Taurus ascendant) and house 1, `get_gemstone`
resolves the sign of chart slot `(1 + 0) % 12 + 1 = 2` — house 2's sign
मिथुन — not house 1's sign वृष; its output is accordingly derived from
मिथुन's lord बुध (Mercury's gemstone), not from वृष's lord शुक्र. -/
theorem C4_gemstone_house_divergence :
    gemstone_house_rashi 1 c4_chart 1 = "मिथुन" ∧
    (c4_chart 1).sign = "वृष" ∧
    lordOf "मिथुन" = "बुध" ∧ lordOf "वृष" = "शुक्र" ∧
    get_gemstone 1 c4_chart c4_positions 1 =
      "पन्ना ब्राज़ीली / पेरिडॉट / ग्रीन तुरमुली 5+ रत्ती चाँदी या प्लैटिनम में" ∧
    gemstone_house_rashi 1 c4_chart 1 ≠ (c4_chart 1).sign := by decide

/-- C5 counterexample: the sidereal longitude 13.33325 lies in [0, 360) but
the computed pada is 5 — there is no clamping to 1–4. -/
theorem C5_pada_counterexample :
    (0 : ℚ) ≤ 266665 / 20000 ∧ (266665 / 20000 : ℚ) < 360 ∧
    (calculate_nakshatra_and_charan (266665 / 20000)).2 = 5 := by
  refine ⟨by norm_num, by norm_num, ?_⟩
  norm_num [calculate_nakshatra_and_charan, pymod, nakshatra_degrees, charan_degrees]

/-- C5 (amended): the pada is `floor((sidereal mod 13.3333) / 3.3333) + 1`
with no clamping; on [0, 360) it lies in 1–5, and reaches 5 exactly when
the offset into the lunar mansion is at least 13.3332 = 4 × 3.3333. -/
theorem C5_pada_formula_and_range (s : ℚ) (h0 : 0 ≤ s) (h1 : s < 360) :
    (calculate_nakshatra_and_charan s).2 =
        ⌊pymod s nakshatra_degrees / charan_degrees⌋ + 1
  ∧ 1 ≤ (calculate_nakshatra_and_charan s).2
  ∧ (calculate_nakshatra_and_charan s).2 ≤ 5
  ∧ ((calculate_nakshatra_and_charan s).2 = 5 ↔
      4 * charan_degrees ≤ pymod s nakshatra_degrees) := by
  have hnd : (0 : ℚ) < nakshatra_degrees := by norm_num [nakshatra_degrees]
  have hcd : (0 : ℚ) < charan_degrees := by norm_num [charan_degrees]
  have hrem0 : 0 ≤ pymod s nakshatra_degrees := pymod_nonneg hnd
  have hrem1 : pymod s nakshatra_degrees < nakshatra_degrees := pymod_lt hnd
  set rem := pymod s nakshatra_degrees with hrem
  have hq0 : (0 : ℚ) ≤ rem / charan_degrees := by positivity
  have hq5 : rem / charan_degrees < 5 := by
    rw [div_lt_iff₀ hcd]
    calc rem < nakshatra_degrees := hrem1
      _ < 5 * charan_degrees := by norm_num [nakshatra_degrees, charan_degrees]
  have hfl0 : 0 ≤ ⌊rem / charan_degrees⌋ := Int.floor_nonneg.mpr hq0
  have hfl5 : ⌊rem / charan_degrees⌋ < 5 := by
    have := Int.floor_le (rem / charan_degrees)
    by_contra hcon
    push_neg at hcon
    have : (5 : ℚ) ≤ rem / charan_degrees := le_trans (by exact_mod_cast hcon) this
    linarith
  have hcharan : (calculate_nakshatra_and_charan s).2 = ⌊rem / charan_degrees⌋ + 1 := rfl
  refine ⟨hcharan, by omega, by omega, ?_⟩
  rw [hcharan]
  constructor
  · intro h5
    have h4 : (4 : ℤ) ≤ ⌊rem / charan_degrees⌋ := by omega
    have : (4 : ℚ) ≤ rem / charan_degrees := by
      have := Int.le_floor.mp h4
      exact_mod_cast this
    rw [le_div_iff₀ hcd] at this
    linarith
  · intro hge
    have : (4 : ℚ) ≤ rem / charan_degrees := by
      rw [le_div_iff₀ hcd]
      linarith
    have h4 : (4 : ℤ) ≤ ⌊rem / charan_degrees⌋ := Int.le_floor.mpr (by exact_mod_cast this)
    omega

/-- Witness for C5 (amended) at the concrete longitude 13.33325: the
hypotheses hold and the pada is within 1–5. -/
theorem C5_pada_formula_and_range_witness :
    ((0 : ℚ) ≤ 266665 / 20000 ∧ (266665 / 20000 : ℚ) < 360) ∧
    1 ≤ (calculate_nakshatra_and_charan (266665 / 20000)).2 ∧
    (calculate_nakshatra_and_charan (266665 / 20000)).2 ≤ 5 :=
  ⟨⟨by norm_num, by norm_num⟩,
   (C5_pada_formula_and_range (266665 / 20000) (by norm_num) (by norm_num)).2.1,
   (C5_pada_formula_and_range (266665 / 20000) (by norm_num) (by norm_num)).2.2.1⟩

lemma floor_div_30_bounds {r : ℚ} (h0 : 0 ≤ r) (h1 : r < 360) :
    0 ≤ ⌊r / 30⌋ ∧ ⌊r / 30⌋ < 12 := by
  constructor
  · exact Int.floor_nonneg.mpr (by positivity)
  · by_contra hcon
    push_neg at hcon
    have hle := Int.floor_le (r / 30)
    have : (12 : ℚ) ≤ r / 30 := le_trans (by exact_mod_cast hcon) hle
    rw [le_div_iff₀ (by norm_num : (0:ℚ) < 30)] at this
    linarith

lemma sign_index_opposite {r : ℚ} (h0 : 0 ≤ r) (h1 : r < 360) :
    (⌊pymod (r + 180) 360 / 30⌋ % 12).toNat =
      ((⌊r / 30⌋ % 12).toNat + 6) % 12 := by
  rcases lt_or_le r 180 with hlt | hge
  · have hpm : pymod (r + 180) 360 = r + 180 :=
      pymod_eq_self (by linarith) (by linarith)
    have hfl : ⌊(r + 180) / 30⌋ = ⌊r / 30⌋ + 6 := by
      have heq : (r + 180) / 30 = r / 30 + ((6 : ℤ) : ℚ) := by push_cast; ring
      rw [heq, Int.floor_add_int]
    have hb1 : 0 ≤ ⌊r / 30⌋ := (floor_div_30_bounds h0 h1).1
    have hb2 : ⌊r / 30⌋ < 6 := by
      by_contra hcon
      push_neg at hcon
      have hle := Int.floor_le (r / 30)
      have : (6 : ℚ) ≤ r / 30 := le_trans (by exact_mod_cast hcon) hle
      rw [le_div_iff₀ (by norm_num : (0:ℚ) < 30)] at this
      linarith
    rw [hpm, hfl]
    omega
  · have hfl360 : ⌊(r + 180) / 360⌋ = 1 := by
      have hlow : ((1 : ℤ) : ℚ) ≤ (r + 180) / 360 := by
        rw [le_div_iff₀ (by norm_num : (0:ℚ) < 360)]
        push_cast; linarith
      have hhigh : (r + 180) / 360 < (1 : ℤ) + 1 := by
        rw [div_lt_iff₀ (by norm_num : (0:ℚ) < 360)]
        push_cast; linarith
      exact Int.floor_eq_iff.mpr ⟨hlow, hhigh⟩
    have hpm : pymod (r + 180) 360 = r - 180 := by
      unfold pymod
      rw [hfl360]
      push_cast; ring
    have hfl : ⌊(r - 180) / 30⌋ = ⌊r / 30⌋ - 6 := by
      have heq : (r - 180) / 30 = r / 30 + ((-6 : ℤ) : ℚ) := by push_cast; ring
      rw [heq, Int.floor_add_int]
      omega
    have hb1 : 6 ≤ ⌊r / 30⌋ := by
      have hq : ((6 : ℤ) : ℚ) ≤ r / 30 := by
        rw [le_div_iff₀ (by norm_num : (0:ℚ) < 30)]
        push_cast; linarith
      exact Int.le_floor.mpr hq
    have hb2 : ⌊r / 30⌋ < 12 := (floor_div_30_bounds h0 h1).2
    rw [hpm, hfl]
    omega

/-- C6: for every ephemeris oracle and ayanamsa value, the second node's
(Ketu's) sidereal longitude is the first node's plus 180 (mod 360), its
sign index is 6 signs (mod 12) from the first node's, and its sign,
nakshatra and pada are re-derived from the adjusted longitude (both nodes
read the same `swe.MEAN_NODE` ephemeris entry; Ketu is never queried
independently). -/
theorem C6_ketu_opposite_node (calc_ut : ℕ → ℚ) (ayanamsa : ℚ) :
    ∃ rp kp : PlanetPos,
      (compute_planet_positions calc_ut ayanamsa).lookup "राहु" = some rp ∧
      (compute_planet_positions calc_ut ayanamsa).lookup "केतु" = some kp ∧
      kp.degree = pymod (rp.degree + 180) 360 ∧
      kp.sign_number - 1 = ((rp.sign_number - 1) + 6) % 12 ∧
      kp.sign = rashi_names.getD (((rp.sign_number - 1) + 6) % 12) "" ∧
      kp.nakshatra = (calculate_nakshatra_and_charan kp.degree).1 ∧
      kp.charan = (calculate_nakshatra_and_charan kp.degree).2 := by
  have h0 : 0 ≤ pymod (calc_ut 10 - ayanamsa) 360 := pymod_nonneg (by norm_num)
  have h1 : pymod (calc_ut 10 - ayanamsa) 360 < 360 := pymod_lt (by norm_num)
  refine ⟨⟨pymod (calc_ut 10 - ayanamsa) 360,
           rashi_names.getD (⌊pymod (calc_ut 10 - ayanamsa) 360 / 30⌋ % 12).toNat "",
           (⌊pymod (calc_ut 10 - ayanamsa) 360 / 30⌋ % 12).toNat + 1,
           (calculate_nakshatra_and_charan (pymod (calc_ut 10 - ayanamsa) 360)).1,
           (calculate_nakshatra_and_charan (pymod (calc_ut 10 - ayanamsa) 360)).2⟩,
          ⟨pymod (pymod (calc_ut 10 - ayanamsa) 360 + 180) 360,
           rashi_names.getD
             (⌊pymod (pymod (calc_ut 10 - ayanamsa) 360 + 180) 360 / 30⌋ % 12).toNat "",
           (⌊pymod (pymod (calc_ut 10 - ayanamsa) 360 + 180) 360 / 30⌋ % 12).toNat + 1,
           (calculate_nakshatra_and_charan
             (pymod (pymod (calc_ut 10 - ayanamsa) 360 + 180) 360)).1,
           (calculate_nakshatra_and_charan
             (pymod (pymod (calc_ut 10 - ayanamsa) 360 + 180) 360)).2⟩,
          ?_, ?_, rfl, ?_, ?_, rfl, rfl⟩
  · simp [compute_planet_positions, planets_swe, List.lookup]
  · simp [compute_planet_positions, planets_swe, List.lookup]
  · simpa using sign_index_opposite h0 h1
  · simp only [Nat.add_sub_cancel]
    rw [sign_index_opposite h0 h1]

/-- C7 (amended): `get_gemstone` applies, in priority order, (a) house lord
strong and benefic → lord's gemstone; (b) else the first benefic occupying
the resolved chart slot and strong there → its gemstone; (c) else the
first benefic — the Moon included — whose aspect offsets (+4/+8 for
Jupiter, +6 for the others) hit the slot, with a strength test against its
own placement house's sign → its gemstone; (d) else houses 5 and 9 fall
back to Jupiter's fixed gemstone and house 1 to the resolved lord's
gemstone: the per-house static tables of the claim are unreachable. -/
theorem C7_gemstone_priority (lagna_chart : ℕ → HouseData)
    (planet_positions : List (String × PlanetPos)) (lagna_sign_index house_number : ℕ)
    (house_index : ℕ) (hslot : house_index = (lagna_sign_index + (house_number - 1)) % 12 + 1)
    (rashi : String) (hrashi : rashi = (lagna_chart house_index).sign)
    (lord : String) (hlord : lord = lordOf rashi) :
    (((sign_of planet_positions lord == rashi ||
        sign_of planet_positions lord == (exalted_signs.lookup lord).getD "") &&
        benefics.contains lord) = true →
      get_gemstone house_number lagna_chart planet_positions lagna_sign_index =
        (planet_to_gemstone.lookup lord).getD "Unknown")
  ∧ (((sign_of planet_positions lord == rashi ||
        sign_of planet_positions lord == (exalted_signs.lookup lord).getD "") &&
        benefics.contains lord) = false →
      (∀ p, benefics.find? (gem_in_house_strong lagna_chart planet_positions house_index)
            = some p →
        get_gemstone house_number lagna_chart planet_positions lagna_sign_index =
          (planet_to_gemstone.lookup p).getD "Unknown")
      ∧ (benefics.find? (gem_in_house_strong lagna_chart planet_positions house_index)
            = none →
          (∀ p, benefics.find? (gem_aspect_strong lagna_chart planet_positions house_index)
                = some p →
            get_gemstone house_number lagna_chart planet_positions lagna_sign_index =
              (planet_to_gemstone.lookup p).getD "Unknown")
          ∧ (benefics.find? (gem_aspect_strong lagna_chart planet_positions house_index)
                = none →
              ((house_number = 5 ∨ house_number = 9) →
                get_gemstone house_number lagna_chart planet_positions lagna_sign_index =
                  "पीत पुखराज / पीला बज्रमणि 5+ रत्ती सोना या ब्रॉन्ज़ में")
              ∧ (house_number = 1 →
                  get_gemstone house_number lagna_chart planet_positions lagna_sign_index =
                    (planet_to_gemstone.lookup lord).getD
                      ((jeevan_rakshak_ratna.lookup rashi).getD "Unknown"))))) := by
  subst hslot
  subst hrashi
  subst hlord
  constructor
  · intro hA
    unfold get_gemstone
    simp only [hA, if_true]
  · intro hA
    refine ⟨?_, ?_⟩
    · intro p hp
      unfold get_gemstone
      simp only [hA, Bool.false_eq_true, if_false, hp]
    · intro hB
      refine ⟨?_, ?_⟩
      · intro p hp
        unfold get_gemstone
        simp only [hA, Bool.false_eq_true, if_false, hB, hp]
      · intro hC
        constructor
        · intro h59
          unfold get_gemstone
          simp only [hA, Bool.false_eq_true, if_false, hB, hC]
          rcases h59 with h | h <;> subst h <;> simp [List.lookup, planet_to_gemstone]
        · intro h1
          subst h1
          unfold get_gemstone
          simp only [hA, Bool.false_eq_true, if_false, hB, hC]
          norm_num

/-- Chart for the C7 counterexample: ascendant Aries; house 5 carries सिंह
(lord Sun, strong there but not benefic), no benefic occupies house 5 and
no benefic aspects it (Jupiter in house 2 aspects 6 and 10; Venus and
Mercury in house 3 aspect 9; the Moon in house 4 aspects 10). -/
def c7_positions : List (String × PlanetPos) :=
  [("सूर्य", ⟨0, "सिंह", 5, "", 1⟩), ("चंद्र", ⟨0, "कर्क", 4, "", 1⟩), ("बुध", ⟨0, "मिथुन", 3, "", 1⟩),
   ("शुक्र", ⟨0, "मिथुन", 3, "", 1⟩), ("मंगल", ⟨0, "मेष", 1, "", 1⟩), ("बृहस्पति", ⟨0, "वृष", 2, "", 1⟩),
   ("शनि", ⟨0, "मेष", 1, "", 1⟩), ("राहु", ⟨0, "कन्या", 6, "", 1⟩), ("केतु", ⟨0, "मीन", 12, "", 1⟩)]

/-- The ascendant chart over `c7_positions` (ascendant Aries). -/
def c7_chart : ℕ → HouseData := (build_north_indian_chart 0 0 c7_positions).1

/-- C7 counterexample: none of the dynamic rules (a)–(c) fires for house 5
of this chart, and `get_gemstone` returns Jupiter's fixed gemstone — not
the `vidya_vardhak_ratna` entry for the house's sign सिंह that the claim's
fallback (d) prescribes. -/
theorem C7_gemstone_fallback_counterexample :
    ((c7_chart 5).sign = "सिंह" ∧ lordOf "सिंह" = "सूर्य" ∧ "सूर्य" ∉ benefics) ∧
    (∀ p ∈ benefics, p ∉ (c7_chart 5).planets) ∧
    benefics.find? (gem_aspect_strong c7_chart c7_positions 5) = none ∧
    get_gemstone 5 c7_chart c7_positions 0 =
      "पीत पुखराज / पीला बज्रमणि 5+ रत्ती सोना या ब्रॉन्ज़ में" ∧
    vidya_vardhak_ratna.lookup "सिंह" = some "माणिक 5 रत्ती सोना या ब्रॉन्ज़ में" ∧
    get_gemstone 5 c7_chart c7_positions 0 ≠
      (vidya_vardhak_ratna.lookup ((c7_chart 5).sign)).getD "Unknown" := by decide

/-- Witness for C7 (amended) at the `c7_chart` input: the lord of the
resolved slot is not a benefic, neither scan finds a planet, and house 5
falls back to Jupiter's fixed gemstone. -/
theorem C7_gemstone_priority_witness :
    (((sign_of c7_positions "सूर्य" == "सिंह" ||
        sign_of c7_positions "सूर्य" == (exalted_signs.lookup "सूर्य").getD "") &&
        benefics.contains "सूर्य") = false ∧
      benefics.find? (gem_in_house_strong c7_chart c7_positions 5) = none ∧
      benefics.find? (gem_aspect_strong c7_chart c7_positions 5) = none) ∧
    get_gemstone 5 c7_chart c7_positions 0 =
      "पीत पुखराज / पीला बज्रमणि 5+ रत्ती सोना या ब्रॉन्ज़ में" :=
  ⟨⟨by decide, by decide, by decide⟩,
   ((((C7_gemstone_priority c7_chart c7_positions 0 5 5 (by norm_num) "सिंह" (by decide)
        "सूर्य" (by decide)).2 (by decide)).2 (by decide)).2 (by decide)).1 (Or.inl rfl)⟩

/-- C8: when both Moon and Saturn are located in the ascendant chart, the
sade-sati flag is set iff Saturn's house minus Moon's house, mod 12, is in
{0, 1, 11}; in particular co-located Moon and Saturn give relative
position 0 and a set flag. -/
theorem C8_sade_sati (chart : ℕ → HouseData) (moon_house saturn_house : ℕ)
    (hmo : get_planet_house chart "चंद्र" = some moon_house)
    (hsa : get_planet_house chart "शनि" = some saturn_house) :
    (evaluate_sade_sati chart = true ↔
      ((saturn_house : ℤ) - (moon_house : ℤ)) % 12 ∈ ([0, 1, 11] : List ℤ))
  ∧ (moon_house = saturn_house → evaluate_sade_sati chart = true) := by
  unfold evaluate_sade_sati
  rw [hmo, hsa]
  constructor
  · simp
  · rintro rfl
    simp

/-- Positions with Moon and Saturn sharing sign number 8 (both in house 8
of an Aries-ascendant chart). -/
def c8_positions : List (String × PlanetPos) :=
  [("सूर्य", ⟨0, "वृष", 2, "", 1⟩), ("चंद्र", ⟨0, "वृश्चिक", 8, "", 1⟩), ("बुध", ⟨0, "मिथुन", 3, "", 1⟩),
   ("शुक्र", ⟨0, "मकर", 10, "", 1⟩), ("मंगल", ⟨0, "मेष", 1, "", 1⟩), ("बृहस्पति", ⟨0, "धनु", 9, "", 1⟩),
   ("शनि", ⟨0, "वृश्चिक", 8, "", 1⟩), ("राहु", ⟨0, "कर्क", 4, "", 1⟩), ("केतु", ⟨0, "मकर", 10, "", 1⟩)]

/-- The ascendant chart over `c8_positions` (ascendant Aries). -/
def c8_chart : ℕ → HouseData := (build_north_indian_chart 0 0 c8_positions).1

/-- Witness for C8: Moon and Saturn co-located in house 8 — relative
position 0 — so the sade-sati flag is set. -/
theorem C8_sade_sati_witness :
    (get_planet_house c8_chart "चंद्र" = some 8 ∧
     get_planet_house c8_chart "शनि" = some 8) ∧
    evaluate_sade_sati c8_chart = true :=
  ⟨⟨by decide, by decide⟩,
   (C8_sade_sati c8_chart 8 8 (by decide) (by decide)).2 rfl⟩

/-- Positions with ascendant Aries and Mars in Aries (house 1), Moon in
house 8, Jupiter in house 9, Rahu in house 4. -/
def aries_positions : List (String × PlanetPos) :=
  [("सूर्य", ⟨0, "वृष", 2, "", 1⟩), ("चंद्र", ⟨0, "वृश्चिक", 8, "", 1⟩), ("बुध", ⟨0, "मिथुन", 3, "", 1⟩),
   ("शुक्र", ⟨0, "मकर", 10, "", 1⟩), ("मंगल", ⟨0, "मेष", 1, "", 1⟩), ("बृहस्पति", ⟨0, "धनु", 9, "", 1⟩),
   ("शनि", ⟨0, "कुंभ", 11, "", 1⟩), ("राहु", ⟨0, "कर्क", 4, "", 1⟩), ("केतु", ⟨0, "मकर", 10, "", 1⟩)]

/-- The ascendant chart over `aries_positions` (ascendant Aries). -/
def aries_chart : ℕ → HouseData := (build_north_indian_chart 0 0 aries_positions).1

/-- Witness for C1: over `aries_positions` (distinct planet names, sign
numbers in 1–12) Mars lands in exactly one house of the ascendant chart. -/
theorem C1_house_bijection_and_placement_witness :
    ((aries_positions.map Prod.fst).Nodup ∧
      ("मंगल", (⟨0, "मेष", 1, "", 1⟩ : PlanetPos)) ∈ aries_positions ∧
      1 ≤ (1 : ℕ) ∧ (1 : ℕ) ≤ 12) ∧
    (∃! h : ℕ, "मंगल" ∈ ((build_north_indian_chart 0 0 aries_positions).1 h).planets) :=
  ⟨⟨by decide, by decide, le_refl 1, by decide⟩,
    (C1_house_bijection_and_placement.2.2 0 0 aries_positions (by decide) "मंगल"
      ⟨0, "मेष", 1, "", 1⟩ (by decide) (by decide) (by decide)).1⟩

/-- Positions with Rahu in house 1, Ketu in house 7, and the other planets
split across houses 2, 3, 3, 8, 9, 10, 11 — some inside the nodal span,
some outside (ascendant Aries). -/
def c2_positions : List (String × PlanetPos) :=
  [("सूर्य", ⟨0, "वृष", 2, "", 1⟩), ("चंद्र", ⟨0, "वृश्चिक", 8, "", 1⟩), ("बुध", ⟨0, "मिथुन", 3, "", 1⟩),
   ("शुक्र", ⟨0, "मकर", 10, "", 1⟩), ("मंगल", ⟨0, "मिथुन", 3, "", 1⟩), ("बृहस्पति", ⟨0, "धनु", 9, "", 1⟩),
   ("शनि", ⟨0, "कुंभ", 11, "", 1⟩), ("राहु", ⟨0, "मेष", 1, "", 1⟩), ("केतु", ⟨0, "तुला", 7, "", 1⟩)]

/-- The ascendant chart over `c2_positions`. -/
def c2_chart : ℕ → HouseData := (build_north_indian_chart 0 0 c2_positions).1

/-- C2 counterexample: Rahu is in house 1 and Ketu in house 7, the non-node
planets occupy houses 2, 3, 3, 8, 9, 10, 11, so neither of the claim's two
containments holds — yet the code sets `exists = true`. -/
theorem C2_kaalsarp_counterexample :
    (kaalsarp_scan c2_chart).rahu_house = some 1 ∧
    (kaalsarp_scan c2_chart).ketu_house = some 7 ∧
    ¬ (∀ q ∈ (kaalsarp_scan c2_chart).planet_houses, 1 < q.2 ∧ q.2 < 7) ∧
    ¬ (∀ q ∈ (kaalsarp_scan c2_chart).planet_houses, q.2 < 1 ∨ q.2 > 7) ∧
    (evaluate_kaalsarp c2_chart).exists' = true := by decide

/-- Positions realising a genuine kaalsarp configuration: Rahu house 1,
Ketu house 7, every other planet strictly between them. -/
def c2b_positions : List (String × PlanetPos) :=
  [("सूर्य", ⟨0, "वृष", 2, "", 1⟩), ("चंद्र", ⟨0, "मिथुन", 3, "", 1⟩), ("बुध", ⟨0, "कर्क", 4, "", 1⟩),
   ("शुक्र", ⟨0, "सिंह", 5, "", 1⟩), ("मंगल", ⟨0, "कन्या", 6, "", 1⟩), ("बृहस्पति", ⟨0, "वृष", 2, "", 1⟩),
   ("शनि", ⟨0, "सिंह", 5, "", 1⟩), ("राहु", ⟨0, "मेष", 1, "", 1⟩), ("केतु", ⟨0, "तुला", 7, "", 1⟩)]

/-- The ascendant chart over `c2b_positions`. -/
def c2b_chart : ℕ → HouseData := (build_north_indian_chart 0 0 c2b_positions).1

/-- Witness for C2 (amended): in the all-between chart no planet sits in a
node's house, and the flag is indeed set. -/
theorem C2_kaalsarp_amended_witness :
    kaalsarp_scan c2b_chart =
      ⟨some 1, some 7,
        [("सूर्य", 2), ("बृहस्पति", 2), ("चंद्र", 3), ("बुध", 4), ("शुक्र", 5), ("शनि", 5), ("मंगल", 6)]⟩ ∧
    (evaluate_kaalsarp c2b_chart).exists' = true :=
  ⟨by decide,
   ((C2_kaalsarp_amended c2b_chart).1 1 7
      [("सूर्य", 2), ("बृहस्पति", 2), ("चंद्र", 3), ("बुध", 4), ("शुक्र", 5), ("शनि", 5), ("मंगल", 6)]
      (by decide)).mpr (by decide)⟩

/-- Witness for C3 at the chart over `aries_positions`: ascendant sign
index 0 with Mars in sign index 0 puts Mars in house 1 and sets
`exists = true`. -/
theorem C3_mangal_dosha_witness :
    (get_planet_house aries_chart "मंगल" = some 1 ∧
     get_planet_house aries_chart "बृहस्पति" = some 9 ∧
     get_planet_house aries_chart "चंद्र" = some 8 ∧
     get_planet_house aries_chart "राहु" = some 4) ∧
    (evaluate_mangal_dosha aries_chart).exists' = true :=
  ⟨⟨by decide, by decide, by decide, by decide⟩,
   (C3_mangal_dosha aries_chart 1 9 8 4 (by decide) (by decide) (by decide)
      (by decide)).1.mpr (by decide)⟩

lemma get_lat_lon_none {geocode : String → Except Unit (Option (ℚ × ℚ))}
    {cache : List (String × (ℚ × ℚ))} {birth_place : String}
    (hc : cache.lookup (birth_place.trim.toLower) = none)
    (hg : geocode (birth_place.trim.toLower) = .ok none ∨
          geocode (birth_place.trim.toLower) = .error ()) :
    get_lat_lon geocode cache birth_place = none := by
  unfold get_lat_lon
  rcases hg with h | h <;> simp only [hc, h]

/-- C9: a request missing a validated body field (birth date, time or
place) is answered 400 "Missing required fields" whatever the oracles and
cache hold — no computation happens; a birth place the geocoder cannot
resolve, whether it returns no match or raises (the exception is caught
and degraded to a no-match), is answered 400 "Invalid birth place"; and a
failed sunrise computation is answered 500. -/
theorem C9_error_paths (req : Request) :
    (∀ (env : Env) (cache : List (String × (ℚ × ℚ))),
      (req.birth_date = none ∨ req.birth_time = none ∨ req.birth_place = none) →
      calculate_kundali env cache req = .badRequest "Missing required fields")
  ∧ (∀ (env : Env) (cache : List (String × (ℚ × ℚ))),
      falsy req.birth_date = false → falsy req.birth_time = false →
      falsy req.birth_place = false →
      cache.lookup ((req.birth_place.getD "").trim.toLower) = none →
      (env.geocode ((req.birth_place.getD "").trim.toLower) = .ok none ∨
        env.geocode ((req.birth_place.getD "").trim.toLower) = .error ()) →
      calculate_kundali env cache req = .badRequest "Invalid birth place")
  ∧ (∀ (env : Env) (cache : List (String × (ℚ × ℚ))) (lat lon jd : ℚ) (nm : String),
      falsy req.birth_date = false → falsy req.birth_time = false →
      falsy req.birth_place = false →
      get_lat_lon env.geocode cache (req.birth_place.getD "") = some (lat, lon) →
      convert_to_julian env.julday (req.birth_date.getD "") (req.birth_time.getD "")
        = some jd →
      req.name = some nm → env.font_ok = true →
      get_sunrise_time env.rise_trans jd lat lon = none →
      calculate_kundali env cache req = .serverError "Failed to calculate sunrise time") := by
  refine ⟨?_, ?_, ?_⟩
  · intro env cache hmiss
    have hcond : (falsy req.birth_date || falsy req.birth_time || falsy req.birth_place)
        = true := by
      rcases hmiss with h | h | h <;> simp [falsy, h]
    unfold calculate_kundali
    simp only [hcond, if_true]
  · intro env cache h1 h2 h3 hc hg
    have hll : get_lat_lon env.geocode cache (req.birth_place.getD "") = none :=
      get_lat_lon_none hc hg
    unfold calculate_kundali
    simp only [h1, h2, h3, Bool.or_self, Bool.or_false, Bool.false_eq_true, if_false, hll]
  · intro env cache lat lon jd nm h1 h2 h3 hll hjd hname hfont hsun
    unfold calculate_kundali
    simp only [h1, h2, h3, Bool.or_self, Bool.or_false, Bool.false_eq_true, if_false,
      hll, hjd, hname, hfont, Bool.not_true, if_false, hsun]

/-- C10: when the birth time parses to an earlier minute of the day than
the sunrise time, `calculate_ist_kaal` catches the `ValueError` it raised
and returns `None`; on the handler's success path this only makes the
response's `ist_kaal` field null — the request itself still succeeds. -/
theorem C10_ist_kaal_before_sunrise :
    (∀ (bs ss : String) (bh bm sh sm : ℕ),
      parseHM bs = some (bh, bm) → parseHM ss = some (sh, sm) →
      bh * 60 + bm < sh * 60 + sm →
      calculate_ist_kaal bs ss = none)
  ∧ (∀ (req : Request) (env : Env) (cache : List (String × (ℚ × ℚ)))
      (lat lon jd sjd : ℚ) (nm : String),
      falsy req.birth_date = false → falsy req.birth_time = false →
      falsy req.birth_place = false →
      get_lat_lon env.geocode cache (req.birth_place.getD "") = some (lat, lon) →
      convert_to_julian env.julday (req.birth_date.getD "") (req.birth_time.getD "")
        = some jd →
      req.name = some nm → env.font_ok = true →
      get_sunrise_time env.rise_trans jd lat lon = some sjd →
      calculate_ist_kaal (req.birth_time.getD "") (julian_to_time_hm sjd) = none →
      ∃ body, calculate_kundali env cache req = .ok body ∧ body.ist_kaal = none) := by
  constructor
  · intro bs ss bh bm sh sm hb hs hlt
    unfold calculate_ist_kaal
    rw [hb, hs]
    have hneg : ((bh : ℤ) * 60 + bm) - ((sh : ℤ) * 60 + sm) < 0 := by
      push_cast
      omega
    simp only [hneg, if_pos]
  · intro req env cache lat lon jd sjd nm h1 h2 h3 hll hjd hname hfont hsun hnone
    unfold calculate_kundali
    simp only [h1, h2, h3, Bool.or_self, Bool.or_false, Bool.false_eq_true, if_false,
      hll, hjd, hname, hfont, Bool.not_true, if_false, hsun]
    exact ⟨_, rfl, hnone⟩

/-- A concrete environment whose geocoding call raises. -/
def env_geo_error : Env :=
  { geocode := fun _ => .error (), julday := fun _ _ _ _ => 0,
    get_ayanamsa_ut := fun _ => 0, houses_ascendant := fun _ _ _ => 0,
    calc_ut := fun _ _ => 0, rise_trans := fun _ _ _ => .error (), font_ok := true }

/-- A concrete environment that geocodes every place to (23, 85) and whose
sunrise computation fails. -/
def env_sunrise_fail : Env :=
  { geocode := fun _ => .ok (some (23, 85)), julday := fun _ _ _ _ => 0,
    get_ayanamsa_ut := fun _ => 0, houses_ascendant := fun _ _ _ => 0,
    calc_ut := fun _ _ => 0, rise_trans := fun _ _ _ => .error (), font_ok := true }

/-- A concrete environment whose sunrise computation succeeds at Julian
day 2440587.5 (whose IST "%H:%M" rendering is "05:30"). -/
def env_sunrise_ok : Env :=
  { geocode := fun _ => .ok (some (23, 85)), julday := fun _ _ _ _ => 0,
    get_ayanamsa_ut := fun _ => 0, houses_ascendant := fun _ _ _ => 0,
    calc_ut := fun _ _ => 0, rise_trans := fun _ _ _ => .ok (0, 2440587.5), font_ok := true }

/-- A request without a birth date. -/
def req_missing_date : Request := ⟨some "A", none, some "04:00", some "Ranchi"⟩

/-- A complete request with birth time 04:00. -/
def req_full : Request := ⟨some "A", some "1990-05-15", some "04:00", some "Ranchi"⟩

/-- Witness for C9: the three error paths at concrete requests and
environments. -/
theorem C9_error_paths_witness :
    (req_missing_date.birth_date = none ∧
      calculate_kundali env_geo_error [] req_missing_date =
        .badRequest "Missing required fields") ∧
    (env_geo_error.geocode ((req_full.birth_place.getD "").trim.toLower) = .error () ∧
      calculate_kundali env_geo_error [] req_full = .badRequest "Invalid birth place") ∧
    (get_sunrise_time env_sunrise_fail.rise_trans 0 23 85 = none ∧
      calculate_kundali env_sunrise_fail [] req_full =
        .serverError "Failed to calculate sunrise time") :=
  ⟨⟨rfl, (C9_error_paths req_missing_date).1 env_geo_error [] (Or.inl rfl)⟩,
   ⟨rfl, (C9_error_paths req_full).2.1 env_geo_error [] rfl rfl rfl rfl (Or.inr rfl)⟩,
   ⟨rfl, (C9_error_paths req_full).2.2 env_sunrise_fail [] 23 85 0 "A" rfl rfl rfl
      rfl rfl rfl rfl rfl⟩⟩

/-- Witness for C10: birth time 04:00 is before the computed sunrise 05:30,
so `calculate_ist_kaal` returns `None`, and the full request still
succeeds with a null `ist_kaal` field. -/
theorem C10_ist_kaal_before_sunrise_witness :
    (parseHM "04:00" = some (4, 0) ∧ parseHM "05:30" = some (5, 30) ∧
      4 * 60 + 0 < 5 * 60 + 30 ∧
      julian_to_time_hm (2440587.5 : ℚ) = "05:30" ∧
      calculate_ist_kaal "04:00" (julian_to_time_hm (2440587.5 : ℚ)) = none) ∧
    (∃ body, calculate_kundali env_sunrise_ok [] req_full = .ok body ∧
      body.ist_kaal = none) := by
  have hjt : julian_to_time_hm (2440587.5 : ℚ) = "05:30" := by
    norm_num [julian_to_time_hm, pad2]
    decide
  have hik : calculate_ist_kaal "04:00" (julian_to_time_hm (2440587.5 : ℚ)) = none := by
    rw [hjt]
    exact C10_ist_kaal_before_sunrise.1 "04:00" "05:30" 4 0 5 30 (by decide) (by decide)
      (by decide)
  refine ⟨⟨by decide, by decide, by decide, hjt, hik⟩, ?_⟩
  exact C10_ist_kaal_before_sunrise.2 req_full env_sunrise_ok [] 23 85 0 2440587.5 "A"
    rfl rfl rfl rfl rfl rfl rfl rfl hik
